import Mathlib

/-!
Verification of the visibility-tracking and state-reconciliation core of
`ffsuspend.py`, a monitor that stops (SIGSTOP) processes whose windows are on
no visible i3 workspace and continues (SIGCONT) them when they become visible.

The Python source is embedded shallowly:

* `ProcessManager` mirrors the class of the same name: per-program tracker
  state (`pid_list`, `xwid_list`, `monitored_workspaces`, `state`, `inhibit`).
* `Manager` mirrors the manager: the output→workspace registry
  (`workspace_by_output`, a Python dict modelled as a key-unique association
  list), the clipboard snapshot `last_clip` (bytes modelled as `List Nat`),
  and the tracker list.
* External queries (process list, X window list, i3 tree, clipboard, killall)
  are parameters: each call site receives the query's result as data.
  `get_process_ids` may raise `subprocess.CalledProcessError`, so its result
  is `Except PyError (Finset Nat)`; the clipboard read is `Option` (timeout);
  killall failure is a `Bool` parameter whose effect the `except` clause
  swallows.
* Python exceptions that escape a function are modelled with `Except PyError`
  or an `Option PyError` component in the result.
* The event loop `Manager.run` is modelled over a finite list of decoded
  events, each paired with the environment (query answers) for that
  iteration; the `try/finally` cleanup is the explicit final `sendContAll`.
-/

inductive StoppedState
  | STOPPED
  | RUNNING
deriving DecidableEq

/-- A control signal issued via `killall` (`-SIGSTOP` or `-SIGCONT`) to the
process group of the named program.  We log issued signals to reason about
which transitions happened. -/
inductive Signal
  | stop (process_name : String)
  | cont (process_name : String)
deriving DecidableEq

/-- Python exceptions that can escape the modelled code. -/
inductive PyError
  | unboundLocalError (var : String)
  | assertionError
  | calledProcessError
  | jsonDecodeError
deriving DecidableEq

/-- State of one `ProcessManager` instance (per-program tracker).  Field
names follow the Python attributes. -/
structure ProcessManager where
  process_name : String
  inhibit : Bool
  state : StoppedState
  pid_list : Finset Nat
  xwid_list : Finset Nat
  monitored_workspaces : Finset String
deriving DecidableEq

/-- `dict.values()` of an association-list dict. -/
def dictValues (d : List (String × String)) : List String :=
  d.map Prod.snd

/-- Python `d[k] = v` on a key-unique association list: overwrite the entry
in place if the key exists, otherwise append. -/
def dictSet : List (String × String) → String → String → List (String × String)
  | [], k, v => [(k, v)]
  | (k', v') :: rest, k, v =>
    if k' = k then (k, v) :: rest else (k', v') :: dictSet rest k v

/-- `ProcessManager.get_target_state`: iterate `monitored_workspaces`; if any
of them appears among `workspace_by_output.values()`, the target is RUNNING,
otherwise STOPPED. -/
def get_target_state (pm : ProcessManager)
    (workspace_by_output : List (String × String)) : StoppedState :=
  if ∃ name ∈ pm.monitored_workspaces,
      name ∈ dictValues workspace_by_output
  then StoppedState.RUNNING
  else StoppedState.STOPPED

/-- Result of `subprocess.check_output(killall ...)`: either it succeeds or it
raises `CalledProcessError` (e.g. no process group matched). -/
def killallRun (killallOk : Bool) : Except PyError Unit :=
  if killallOk then Except.ok () else Except.error PyError.calledProcessError

/-- `ProcessManager.send_stop`: try `killall -SIGSTOP -g name`, swallowing
`CalledProcessError`; then set `state = STOPPED` unconditionally.  The signal
issuance attempt is logged in either case. -/
def send_stop (pm : ProcessManager) (killallOk : Bool) :
    ProcessManager × List Signal :=
  match killallRun killallOk with
  | Except.ok _ =>
      ({ pm with state := StoppedState.STOPPED }, [Signal.stop pm.process_name])
  | Except.error _ =>
      ({ pm with state := StoppedState.STOPPED }, [Signal.stop pm.process_name])

/-- `ProcessManager.send_cont`: try `killall -SIGCONT -g name`, swallowing
`CalledProcessError`; then set `state = RUNNING` unconditionally. -/
def send_cont (pm : ProcessManager) (killallOk : Bool) :
    ProcessManager × List Signal :=
  match killallRun killallOk with
  | Except.ok _ =>
      ({ pm with state := StoppedState.RUNNING }, [Signal.cont pm.process_name])
  | Except.error _ =>
      ({ pm with state := StoppedState.RUNNING }, [Signal.cont pm.process_name])

/-- `ProcessManager.inhibit_if_visible`: if the target state is RUNNING, set
`inhibit = True`. -/
def inhibit_if_visible (pm : ProcessManager)
    (workspace_by_output : List (String × String)) : ProcessManager :=
  if get_target_state pm workspace_by_output = StoppedState.RUNNING then
    { pm with inhibit := true }
  else pm

/-- `ProcessManager.check_state`: reconcile `state` with the target state.
`killallOk` is the outcome of the (at most one) killall invocation made by
this call. -/
def check_state (pm : ProcessManager)
    (workspace_by_output : List (String × String)) (killallOk : Bool) :
    ProcessManager × List Signal :=
  let target_state := get_target_state pm workspace_by_output
  if target_state = StoppedState.STOPPED ∧ pm.state = StoppedState.RUNNING then
    if pm.inhibit = false then
      send_stop pm killallOk
    else
      (pm, [])
  else if target_state = StoppedState.RUNNING then
    let pm := if pm.inhibit then { pm with inhibit := false } else pm
    if pm.state = StoppedState.STOPPED then
      send_cont pm killallOk
    else
      (pm, [])
  else
    (pm, [])

/-- `ProcessManager.update_workspace_list`.  The three external queries are
passed in: `pidsQ` is the result of `get_process_ids(process_name)` (which
can raise), `xwidsQ pid` the result of `get_xwindows_for_pid(pid)`, and
`wsQ s` the result of `get_workspaces_for_xwindows(s, tree)`.

With `moved_only = True` the Python body skips the block that binds the local
variable `xwids` and then evaluates `get_workspaces_for_xwindows(xwids, tree)`,
raising `UnboundLocalError`; the model returns that error. -/
def update_workspace_list (pm : ProcessManager) (moved_only : Bool)
    (pidsQ : Except PyError (Finset Nat)) (xwidsQ : Nat → Finset Nat)
    (wsQ : Finset Nat → Finset String) : Except PyError ProcessManager :=
  if moved_only then
    Except.error (PyError.unboundLocalError "xwids")
  else
    match pidsQ with
    | Except.error e => Except.error e
    | Except.ok pids =>
      let pm := if pids ≠ pm.pid_list then { pm with pid_list := pids } else pm
      if pids = ∅ then
        Except.ok pm
      else
        let xwids := pids.biUnion xwidsQ
        let changed := xwids ≠ pm.xwid_list
        let pm := if changed then { pm with xwid_list := xwids } else pm
        let update_workspaces := changed
        if update_workspaces then
          let mws := wsQ xwids
          Except.ok (if mws ≠ pm.monitored_workspaces then
            { pm with monitored_workspaces := mws } else pm)
        else
          Except.ok pm

/-- State of the `Manager` instance.  `workspace_by_output` is the Python
dict, `last_clip` the optional clipboard bytes. -/
structure Manager where
  workspace_by_output : List (String × String)
  last_clip : Option (List Nat)
  monitored_processes : List ProcessManager
  enable_clibboard_checking : Bool
deriving DecidableEq

/-- `Manager.check_clipboard`: given the result `c` of `get_clipboard()`
(`none` on timeout), return whether the clipboard changed since the last
call, updating `last_clip` when a value was read. -/
def check_clipboard (m : Manager) (c : Option (List Nat)) : Bool × Manager :=
  match c with
  | none => (false, m)
  | some v => (decide (some v ≠ m.last_clip), { m with last_clip := some v })

/-- `Manager.update_from_focus_event`: overwrite the registry entry for the
event's output with the event's workspace name. -/
def update_from_focus_event (m : Manager)
    (current_name current_output : String) : Manager :=
  { m with workspace_by_output :=
      dictSet m.workspace_by_output current_output current_name }

/-- `Manager.update_visible_workspaces`: rebuild the registry from the
`get_workspaces` query result, a list of (output, name, visible) records. -/
def update_visible_workspaces (m : Manager)
    (j : List (String × String × Bool)) : Manager :=
  { m with workspace_by_output :=
      j.foldl (fun d i => if i.2.2 then dictSet d i.1 i.2.1 else d) [] }

/-- Environment of one event-loop iteration: the answers the external queries
would give during that iteration.  `pidsQ` answers `get_process_ids` per
process name (possibly raising), `xwidsQ` answers `get_xwindows_for_pid`,
`wsQ` answers `get_workspaces_for_xwindows`, `clip` answers
`get_clipboard()`, and `killallOk` is the outcome of any killall call. -/
structure Env where
  clip : Option (List Nat)
  pidsQ : String → Except PyError (Finset Nat)
  xwidsQ : Nat → Finset Nat
  wsQ : Finset Nat → Finset String
  killallOk : Bool

/-- One decoded line of the `i3-msg -t subscribe` stream, as dispatched by
`Manager.run`: a workspace event carries a `current` record (name, output), a
window event carries a `container` record; a JSON object with a `change` key
but neither record hits `assert False`, one without a `change` key fails the
`assert`, and a line that is not valid JSON raises in `json.loads`. -/
inductive Event
  | workspaceEv (change : String) (current_name : String) (current_output : String)
  | windowEv (change : String)
  | unknownEv (change : String)
  | noChangeEv
  | jsonErrorEv

/-- Run `check_state` over every tracker in order (the `for mp in
self.monitored_processes: mp.check_state()` loops), collecting signals. -/
def checkAllTrackers (trackers : List ProcessManager)
    (workspace_by_output : List (String × String)) (killallOk : Bool) :
    List ProcessManager × List Signal :=
  match trackers with
  | [] => ([], [])
  | pm :: rest =>
    let r := check_state pm workspace_by_output killallOk
    let rs := checkAllTrackers rest workspace_by_output killallOk
    (r.1 :: rs.1, r.2 ++ rs.2)

/-- The window-event loops: for each tracker in order, run
`update_workspace_list` (with the given `moved_only`) then `check_state`.
An exception aborts the loop at the failing tracker, leaving it and the
later trackers unchanged. -/
def updateAndCheckTrackers (trackers : List ProcessManager)
    (workspace_by_output : List (String × String)) (moved_only : Bool)
    (env : Env) : List ProcessManager × List Signal × Option PyError :=
  match trackers with
  | [] => ([], [], none)
  | pm :: rest =>
    match update_workspace_list pm moved_only (env.pidsQ pm.process_name)
        env.xwidsQ env.wsQ with
    | Except.error e => (pm :: rest, [], some e)
    | Except.ok pm' =>
      let r := check_state pm' workspace_by_output env.killallOk
      let rs := updateAndCheckTrackers rest workspace_by_output moved_only env
      (r.1 :: rs.1, r.2 ++ rs.2.1, rs.2.2)

/-- The body of `Manager.run`'s event loop for one decoded event, returning
the updated manager, the signals issued, and the exception, if any, that
escapes this iteration. -/
def processEvent (m : Manager) (ev : Event) (env : Env) :
    Manager × List Signal × Option PyError :=
  match ev with
  | Event.jsonErrorEv => (m, [], some PyError.jsonDecodeError)
  | Event.noChangeEv => (m, [], some PyError.assertionError)
  | Event.unknownEv _ => (m, [], some PyError.assertionError)
  | Event.workspaceEv change current_name current_output =>
    if change = "focus" then
      let c :=
        if m.enable_clibboard_checking then check_clipboard m env.clip
        else (false, m)
      let m1 := c.2
      let inh := fun mp => inhibit_if_visible mp m1.workspace_by_output
      let m2 :=
        if c.1 then
          { m1 with monitored_processes := m1.monitored_processes.map inh }
        else m1
      let m3 := update_from_focus_event m2 current_name current_output
      let r := checkAllTrackers m3.monitored_processes m3.workspace_by_output
        env.killallOk
      ({ m3 with monitored_processes := r.1 }, r.2, none)
    else
      (m, [], none)
  | Event.windowEv change =>
    if change = "new" ∨ change = "close" then
      let r := updateAndCheckTrackers m.monitored_processes
        m.workspace_by_output false env
      ({ m with monitored_processes := r.1 }, r.2.1, r.2.2)
    else if change = "move" then
      let r := updateAndCheckTrackers m.monitored_processes
        m.workspace_by_output true env
      ({ m with monitored_processes := r.1 }, r.2.1, r.2.2)
    else
      (m, [], none)

/-- Consume the event stream until it ends or an iteration raises. -/
def runLoop (m : Manager) (events : List (Event × Env)) :
    Manager × List Signal × Option PyError :=
  match events with
  | [] => (m, [], none)
  | (ev, env) :: rest =>
    let r := processEvent m ev env
    match r.2.2 with
    | some e => (r.1, r.2.1, some e)
    | none =>
      let rs := runLoop r.1 rest
      (rs.1, r.2.1 ++ rs.2.1, rs.2.2)

/-- The `finally` cleanup of `Manager.run`: `send_cont` on every tracker. -/
def sendContAll (trackers : List ProcessManager) (killallOk : Bool) :
    List ProcessManager × List Signal :=
  match trackers with
  | [] => ([], [])
  | pm :: rest =>
    let r := send_cont pm killallOk
    let rs := sendContAll rest killallOk
    (r.1 :: rs.1, r.2 ++ rs.2)

/-- Environment of `Manager.run`'s initialization: the startup clipboard
read, the `get_workspaces` query result, and the killall outcome used during
the initial reconciliation. -/
structure InitEnv where
  clip : Option (List Nat)
  workspacesJson : List (String × String × Bool)
  killallOk : Bool

/-- `Manager.run` over a finite event stream: initialization (startup
clipboard read when enabled, registry rebuild, initial reconciliation of
every tracker), then the event loop, then — whether the loop ended normally
or with an exception — the `finally` block continuing every tracker.  The
returned `Option PyError` is the exception `run` re-raises after cleanup. -/
def Manager.run (m : Manager) (ienv : InitEnv) (events : List (Event × Env)) :
    Manager × List Signal × Option PyError :=
  let m0 :=
    if m.enable_clibboard_checking then { m with last_clip := ienv.clip } else m
  let m1 := update_visible_workspaces m0 ienv.workspacesJson
  let r0 := checkAllTrackers m1.monitored_processes m1.workspace_by_output
    ienv.killallOk
  let m2 := { m1 with monitored_processes := r0.1 }
  let rl := runLoop m2 events
  let rf := sendContAll rl.1.monitored_processes ienv.killallOk
  ({ rl.1 with monitored_processes := rf.1 },
    r0.2 ++ rl.2.1 ++ rf.2, rl.2.2)

/-- `get_target_state` reads only the tracker's `monitored_workspaces`. -/
theorem get_target_state_congr (pm pm' : ProcessManager)
    (d : List (String × String))
    (h : pm.monitored_workspaces = pm'.monitored_workspaces) :
    get_target_state pm d = get_target_state pm' d := by
  simp [get_target_state, h]

/-- An inhibited, running tracker whose target is STOPPED is left untouched
by `check_state`. -/
theorem check_state_inhibited_frozen (pm : ProcessManager)
    (d : List (String × String)) (killallOk : Bool)
    (hi : pm.inhibit = true) (hs : pm.state = StoppedState.RUNNING)
    (ht : get_target_state pm d = StoppedState.STOPPED) :
    check_state pm d killallOk = (pm, []) := by
  simp [check_state, ht, hi, hs]

/-- The tracker component of `checkAllTrackers` is a pointwise map. -/
theorem checkAllTrackers_fst (l : List ProcessManager)
    (d : List (String × String)) (k : Bool) :
    (checkAllTrackers l d k).1 = l.map (fun pm => (check_state pm d k).1) := by
  induction l with
  | nil => rfl
  | cons pm rest ih => simp [checkAllTrackers, ih]

/-- `sendContAll` sets every tracker to RUNNING. -/
theorem sendContAll_fst (l : List ProcessManager) (k : Bool) :
    (sendContAll l k).1
      = l.map (fun pm => { pm with state := StoppedState.RUNNING }) := by
  cases k <;>
    · induction l with
      | nil => rfl
      | cons pm rest ih => simp [sendContAll, send_cont, killallRun] at ih ⊢
                           exact ih

/-- `sendContAll` logs one continue-signal per tracker. -/
theorem sendContAll_snd (l : List ProcessManager) (k : Bool) :
    (sendContAll l k).2 = l.map (fun pm => Signal.cont pm.process_name) := by
  cases k <;>
    · induction l with
      | nil => rfl
      | cons pm rest ih => simp [sendContAll, send_cont, killallRun] at ih ⊢
                           exact ih

/-- C1: the spec says a moved-only occupancy refresh (as issued for every
tracker on a window `move` event) reuses the cached PIDs and window IDs,
re-queries workspace membership and completes without error.  The code does
not: with `moved_only = True` the Python body never binds the local variable
`xwids` (the binding sits inside the `if not moved_only` block) yet evaluates
`get_workspaces_for_xwindows(xwids, tree)`, so every such call raises
`UnboundLocalError`, contradicting the function's own docstring.  Evaluated
here at the claim's scenario tracker (cached PIDs, window IDs, occupancy
from workspace "1") and arbitrary query answers. -/
theorem update_workspace_list_moved_only_raises
    (pidsQ : Except PyError (Finset Nat)) (xwidsQ : Nat → Finset Nat)
    (wsQ : Finset Nat → Finset String) :
    update_workspace_list
      ⟨"ff", false, StoppedState.RUNNING, {1}, {10}, {"1"}⟩ true
      pidsQ xwidsQ wsQ
      = Except.error (PyError.unboundLocalError "xwids") := rfl

/-- C5: `get_target_state` returns RUNNING iff `monitored_workspaces`
intersects the registry's visible-workspace values, STOPPED otherwise; in
particular occupancy from workspace "1" yields RUNNING against the registry
mapping HDMI-1 to "1" and STOPPED against the registry mapping HDMI-1
to "2". -/
theorem get_target_state_spec (pm : ProcessManager)
    (d : List (String × String)) :
    (get_target_state pm d = StoppedState.RUNNING ↔
      (pm.monitored_workspaces ∩ (dictValues d).toFinset).Nonempty) ∧
    (get_target_state pm d = StoppedState.STOPPED ↔
      ¬ (pm.monitored_workspaces ∩ (dictValues d).toFinset).Nonempty) ∧
    get_target_state ⟨"ff", false, StoppedState.RUNNING, ∅, ∅, {"1"}⟩
      [("HDMI-1", "1")] = StoppedState.RUNNING ∧
    get_target_state ⟨"ff", false, StoppedState.RUNNING, ∅, ∅, {"1"}⟩
      [("HDMI-1", "2")] = StoppedState.STOPPED := by
  refine ⟨?_, ?_, by decide, by decide⟩ <;>
    · simp only [get_target_state, Finset.Nonempty, Finset.mem_inter,
        List.mem_toFinset]
      split <;> simp_all

/-- C8: with `moved_only = False` and a fresh PID query returning the empty
set, `update_workspace_list` stops right after replacing `pid_list`: the
cached window IDs and occupied workspaces stay as they were, and the result
does not depend on the window-ID or workspace-membership queries (they are
never performed). -/
theorem update_workspace_list_empty_pids (pm : ProcessManager)
    (xwidsQ xwidsQ' : Nat → Finset Nat)
    (wsQ wsQ' : Finset Nat → Finset String) :
    update_workspace_list pm false (Except.ok ∅) xwidsQ wsQ
      = Except.ok { pm with pid_list := ∅ } ∧
    update_workspace_list pm false (Except.ok ∅) xwidsQ wsQ
      = update_workspace_list pm false (Except.ok ∅) xwidsQ' wsQ' := by
  obtain ⟨n, i, s, p, x, w⟩ := pm
  refine ⟨?_, ?_⟩ <;>
    · simp only [update_workspace_list]
      split <;> simp_all

/-- C9: `send_stop` sets `state = STOPPED` and `send_cont` sets
`state = RUNNING` whether or not the killall invocation fails with
`CalledProcessError` (e.g. no matching process group): the failure is
swallowed inside the function — both are total and return the very same
result as on success. -/
theorem send_signal_failure_swallowed (pm : ProcessManager) (killallOk : Bool) :
    (send_stop pm killallOk).1.state = StoppedState.STOPPED ∧
    send_stop pm killallOk = send_stop pm true ∧
    (send_cont pm killallOk).1.state = StoppedState.RUNNING ∧
    send_cont pm killallOk = send_cont pm true := by
  cases killallOk <;> simp [send_stop, send_cont, killallRun]

/-- C10: `check_clipboard` on a timed-out poll returns false and leaves
`last_clip` unchanged; when `last_clip` is `None`, any successful read — the
empty byte string included — returns true and stores the read value. -/
theorem check_clipboard_edge_cases (m : Manager) (v : List Nat) :
    check_clipboard m none = (false, m) ∧
    (m.last_clip = none →
      check_clipboard m (some v) = (true, { m with last_clip := some v })) := by
  refine ⟨rfl, fun h => ?_⟩
  simp [check_clipboard, h]

/-- Witness for C10 at the empty byte string read over a `None` snapshot. -/
theorem check_clipboard_edge_cases_witness :
    check_clipboard ⟨[], none, [], false⟩ (some [])
      = (true, ⟨[], some [], [], false⟩) :=
  (check_clipboard_edge_cases ⟨[], none, [], false⟩ []).2 rfl

/-- C3: whenever the target state computed by `check_state` is RUNNING, the
call ends with `state = RUNNING` and `inhibit = false`, and if the tracker
was STOPPED on entry the continue-signal is issued during the call. -/
theorem check_state_target_running (pm : ProcessManager)
    (d : List (String × String)) (killallOk : Bool)
    (h : get_target_state pm d = StoppedState.RUNNING) :
    (check_state pm d killallOk).1.state = StoppedState.RUNNING ∧
    (check_state pm d killallOk).1.inhibit = false ∧
    (pm.state = StoppedState.STOPPED →
      (check_state pm d killallOk).2 = [Signal.cont pm.process_name]) := by
  cases killallOk <;> cases hs : pm.state <;> cases hi : pm.inhibit <;>
    simp [check_state, send_cont, killallRun, h, hs, hi]

/-- Witness for C3: a stopped, visible tracker is continued. -/
theorem check_state_target_running_witness :
    get_target_state ⟨"ff", false, StoppedState.STOPPED, ∅, ∅, {"1"}⟩
      [("HDMI-1", "1")] = StoppedState.RUNNING ∧
    ((check_state ⟨"ff", false, StoppedState.STOPPED, ∅, ∅, {"1"}⟩
        [("HDMI-1", "1")] true).1.state = StoppedState.RUNNING ∧
      (check_state ⟨"ff", false, StoppedState.STOPPED, ∅, ∅, {"1"}⟩
        [("HDMI-1", "1")] true).1.inhibit = false ∧
      ((⟨"ff", false, StoppedState.STOPPED, ∅, ∅, {"1"}⟩ : ProcessManager).state
          = StoppedState.STOPPED →
        (check_state ⟨"ff", false, StoppedState.STOPPED, ∅, ∅, {"1"}⟩
          [("HDMI-1", "1")] true).2 = [Signal.cont "ff"])) :=
  ⟨by decide,
    check_state_target_running ⟨"ff", false, StoppedState.STOPPED, ∅, ∅, {"1"}⟩
      [("HDMI-1", "1")] true (by decide)⟩

/-- C4: an inhibited, running tracker is never stopped by `check_state`: the
state stays RUNNING and no signal at all is issued, whatever the target; and
when the target is STOPPED the inhibit flag survives the call. -/
theorem check_state_inhibited_no_stop (pm : ProcessManager)
    (d : List (String × String)) (killallOk : Bool)
    (hi : pm.inhibit = true) (hs : pm.state = StoppedState.RUNNING) :
    (check_state pm d killallOk).1.state = StoppedState.RUNNING ∧
    (check_state pm d killallOk).2 = [] ∧
    (get_target_state pm d = StoppedState.STOPPED →
      (check_state pm d killallOk).1.inhibit = true) := by
  cases ht : get_target_state pm d <;>
    simp [check_state, ht, hi, hs]

/-- Witness for C4: an inhibited tracker whose workspace just became
invisible stays RUNNING, unsignalled and inhibited. -/
theorem check_state_inhibited_no_stop_witness :
    ((check_state ⟨"ff", true, StoppedState.RUNNING, ∅, ∅, {"1"}⟩
        [("HDMI-1", "2")] true).1.state = StoppedState.RUNNING ∧
      (check_state ⟨"ff", true, StoppedState.RUNNING, ∅, ∅, {"1"}⟩
        [("HDMI-1", "2")] true).2 = [] ∧
      (get_target_state ⟨"ff", true, StoppedState.RUNNING, ∅, ∅, {"1"}⟩
          [("HDMI-1", "2")] = StoppedState.STOPPED →
        (check_state ⟨"ff", true, StoppedState.RUNNING, ∅, ∅, {"1"}⟩
          [("HDMI-1", "2")] true).1.inhibit = true)) :=
  check_state_inhibited_no_stop ⟨"ff", true, StoppedState.RUNNING, ∅, ∅, {"1"}⟩
    [("HDMI-1", "2")] true rfl rfl

/-- C7: `check_state` is idempotent — a second call with the same registry,
unchanged occupancy and whatever killall outcomes performs no transition and
issues no signal. -/
theorem check_state_idempotent (pm : ProcessManager)
    (d : List (String × String)) (k k' : Bool) :
    check_state (check_state pm d k).1 d k' = ((check_state pm d k).1, []) := by
  by_cases hvis : ∃ name ∈ pm.monitored_workspaces, name ∈ dictValues d <;>
    cases hs : pm.state <;> cases hi : pm.inhibit <;> cases k <;> cases k' <;>
      simp [check_state, get_target_state, hvis, hs, hi,
        send_stop, send_cont, killallRun]

/-- C6: on a `focus` workspace event with clipboard checking enabled and a
changed clipboard value, the loop polls the clipboard against the pre-event
snapshot, latches `inhibit` on every tracker against the pre-focus registry,
only then writes the event's (output, workspace) entry, and reconciles every
tracker against the updated registry; a tracker that was target-RUNNING
under the old visibility is inhibited, and if it was running and the new
visibility makes its target STOPPED, it stays RUNNING, still inhibited, with
no signal issued. -/
theorem focus_event_clipboard_order (m : Manager) (env : Env) (v : List Nat)
    (current_name current_output : String)
    (hen : m.enable_clibboard_checking = true)
    (hc : env.clip = some v) (hne : some v ≠ m.last_clip) :
    (processEvent m (Event.workspaceEv "focus" current_name current_output)
        env).1.workspace_by_output
      = dictSet m.workspace_by_output current_output current_name ∧
    (processEvent m (Event.workspaceEv "focus" current_name current_output)
        env).1.last_clip = some v ∧
    (processEvent m (Event.workspaceEv "focus" current_name current_output)
        env).2.2 = none ∧
    (processEvent m (Event.workspaceEv "focus" current_name current_output)
        env).1.monitored_processes
      = m.monitored_processes.map (fun mp =>
          (check_state (inhibit_if_visible mp m.workspace_by_output)
            (dictSet m.workspace_by_output current_output current_name)
            env.killallOk).1) ∧
    (∀ mp : ProcessManager,
      get_target_state mp m.workspace_by_output = StoppedState.RUNNING →
      (inhibit_if_visible mp m.workspace_by_output).inhibit = true ∧
      (mp.state = StoppedState.RUNNING →
        get_target_state mp
            (dictSet m.workspace_by_output current_output current_name)
          = StoppedState.STOPPED →
        (check_state (inhibit_if_visible mp m.workspace_by_output)
            (dictSet m.workspace_by_output current_output current_name)
            env.killallOk).1.state = StoppedState.RUNNING ∧
        (check_state (inhibit_if_visible mp m.workspace_by_output)
            (dictSet m.workspace_by_output current_output current_name)
            env.killallOk).1.inhibit = true ∧
        (check_state (inhibit_if_visible mp m.workspace_by_output)
            (dictSet m.workspace_by_output current_output current_name)
            env.killallOk).2 = [])) := by
  obtain ⟨wbo, lc, procs, en⟩ := m
  simp only [Manager.enable_clibboard_checking] at hen
  subst hen
  simp only [Manager.last_clip] at hne
  have hstep : processEvent ⟨wbo, lc, procs, true⟩
      (Event.workspaceEv "focus" current_name current_output) env
      = (⟨dictSet wbo current_output current_name, some v,
          (checkAllTrackers
            (procs.map (fun mp => inhibit_if_visible mp wbo))
            (dictSet wbo current_output current_name) env.killallOk).1, true⟩,
        (checkAllTrackers
          (procs.map (fun mp => inhibit_if_visible mp wbo))
          (dictSet wbo current_output current_name) env.killallOk).2,
        none) := by
    simp [processEvent, hc, check_clipboard, hne, update_from_focus_event]
  refine ⟨by rw [hstep], by rw [hstep], by rw [hstep], ?_, ?_⟩
  · rw [hstep]
    simp only [Manager.monitored_processes, checkAllTrackers_fst, List.map_map]
    rfl
  · intro mp h0
    have hinh : (inhibit_if_visible mp wbo).inhibit = true := by
      simp [inhibit_if_visible, h0]
    refine ⟨hinh, fun hs1 ht1 => ?_⟩
    have hmw : (inhibit_if_visible mp wbo).monitored_workspaces
        = mp.monitored_workspaces := by
      simp only [inhibit_if_visible]
      split <;> rfl
    have hs' : (inhibit_if_visible mp wbo).state = StoppedState.RUNNING := by
      simp only [inhibit_if_visible]
      split <;> simpa using hs1
    have ht1' : get_target_state (inhibit_if_visible mp wbo)
        (dictSet wbo current_output current_name) = StoppedState.STOPPED := by
      rw [get_target_state_congr _ mp _ hmw]
      exact ht1
    rw [check_state_inhibited_frozen _ _ _ hinh hs' ht1']
    exact ⟨hs', hinh, rfl⟩

/-- Witness for C6: the claim's scenario — clipboard changes from one byte
string to another on a focus event that moves visibility from workspace "1"
to "2"; the tracker occupying "1" ends RUNNING with `inhibit` latched. -/
theorem focus_event_clipboard_order_witness :
    (processEvent
        ⟨[("HDMI-1", "1")], some [97],
          [⟨"ff", false, StoppedState.RUNNING, ∅, ∅, {"1"}⟩], true⟩
        (Event.workspaceEv "focus" "2" "HDMI-1")
        ⟨some [98], fun _ => Except.ok ∅, fun _ => ∅, fun _ => ∅, true⟩).1.monitored_processes
      = [⟨"ff", true, StoppedState.RUNNING, ∅, ∅, {"1"}⟩] := by
  rw [(focus_event_clipboard_order
    ⟨[("HDMI-1", "1")], some [97],
      [⟨"ff", false, StoppedState.RUNNING, ∅, ∅, {"1"}⟩], true⟩
    ⟨some [98], fun _ => Except.ok ∅, fun _ => ∅, fun _ => ∅, true⟩
    [98] "2" "HDMI-1" rfl rfl (by decide)).2.2.2.1]
  decide

/-- C2: whatever the initial manager, initialization environment and finite
event stream — including streams whose processing raises (a window `move`
event's `UnboundLocalError`, a malformed event's `AssertionError`, a JSON
decode error, a failing PID query) — `Manager.run` ends with every tracker's
`state = RUNNING`, and a continue-signal for the tracker's process name is
in the issued-signal log (the `finally` cleanup). -/
theorem run_cleanup_forces_running (m : Manager) (ienv : InitEnv)
    (events : List (Event × Env)) (pm : ProcessManager)
    (hmem : pm ∈ (Manager.run m ienv events).1.monitored_processes) :
    pm.state = StoppedState.RUNNING ∧
    Signal.cont pm.process_name ∈ (Manager.run m ienv events).2.1 := by
  simp only [Manager.run] at hmem ⊢
  rw [sendContAll_fst] at hmem
  rcases List.mem_map.mp hmem with ⟨q, hq, rfl⟩
  refine ⟨rfl, ?_⟩
  refine List.mem_append_right _ ?_
  rw [sendContAll_snd]
  exact List.mem_map.mpr ⟨q, hq, rfl⟩

/-- Witness for C2: a one-tracker manager fed a single window `move` event,
whose processing raises; cleanup still leaves the tracker RUNNING and logs
its continue-signal. -/
theorem run_cleanup_forces_running_witness :
    (⟨"ff", false, StoppedState.RUNNING, {1}, {10}, {"1"}⟩ : ProcessManager).state
        = StoppedState.RUNNING ∧
    Signal.cont "ff" ∈ (Manager.run
        ⟨[], none, [⟨"ff", false, StoppedState.RUNNING, {1}, {10}, {"1"}⟩], false⟩
        ⟨none, [("HDMI-1", "1", true)], true⟩
        [(Event.windowEv "move",
          ⟨none, fun _ => Except.ok ∅, fun _ => ∅, fun _ => ∅, true⟩)]).2.1 :=
  run_cleanup_forces_running
    ⟨[], none, [⟨"ff", false, StoppedState.RUNNING, {1}, {10}, {"1"}⟩], false⟩
    ⟨none, [("HDMI-1", "1", true)], true⟩
    [(Event.windowEv "move",
      ⟨none, fun _ => Except.ok ∅, fun _ => ∅, fun _ => ∅, true⟩)]
    ⟨"ff", false, StoppedState.RUNNING, {1}, {10}, {"1"}⟩
    (by decide)
